import Mathlib

/-!
Verification of the input-validation and query-dispatch layer of the
ICIO trade-dependency MCP server (`src/server.py`).

The Python source is shallowly embedded below.  Database access is made
explicit: the reference tables (`ocde_icio.countries`,
`ocde_icio.activities`) are a `Db` parameter, the analytical views are
oracle function parameters, and every function that can touch the data
store returns, besides its `Except` result, the list of data-store
operations (`Qy`) it performed, in order.  Python `ValueError`s become
the `Err` type; the distinct raise sites of the source map to distinct
constructors.
-/

/-- Python default whitespace characters for `str.strip` (space, tab,
newline, carriage return, vertical tab, form feed), compared by code
point. -/
def isPySpace (c : Char) : Bool :=
  c.toNat == 32 || c.toNat == 9 || c.toNat == 10 || c.toNat == 13 ||
    c.toNat == 11 || c.toNat == 12

/-- Characters of a string with leading and trailing whitespace removed,
the embedding of Python `str.strip()`. -/
def trimChars (l : List Char) : List Char :=
  List.rdropWhile isPySpace (List.dropWhile isPySpace l)

/-- Embedding of `_norm_code` from `src/server.py`:
`(x or "").strip().upper()`.  For a string argument, `x or ""` is `x`
itself unless `x` is empty, in which case the result is empty either
way, so the truthiness test drops out.  `str.upper()` is `Char.toUpper`
applied pointwise (the codes at play are ASCII). -/
def normCode (s : String) : String :=
  String.mk ((trimChars s.data).map Char.toUpper)

/-- Embedding of `_norm_country` (an alias of `_norm_code`). -/
def normCountry (s : String) : String := normCode s

/-- Embedding of `_norm_sector` (an alias of `_norm_code`). -/
def normSector (s : String) : String := normCode s

theorem toNat_ofNat_valid (n : Nat) (h : n.isValidChar) :
    (Char.ofNat n).toNat = n := by
  rw [Char.ofNat, dif_pos h]
  rfl

theorem toUpper_toUpper (c : Char) : c.toUpper.toUpper = c.toUpper := by
  unfold Char.toUpper
  by_cases h : c.toNat >= 97 ∧ c.toNat <= 122
  · rw [if_pos h]
    have ht : (Char.ofNat (c.toNat - 32)).toNat = c.toNat - 32 :=
      toNat_ofNat_valid _ (Or.inl (by omega))
    rw [if_neg]
    omega
  · rw [if_neg h, if_neg h]

theorem isPySpace_toUpper (c : Char) :
    isPySpace c.toUpper = isPySpace c := by
  unfold Char.toUpper
  by_cases h : c.toNat >= 97 ∧ c.toNat <= 122
  · rw [if_pos h]
    have ht : (Char.ofNat (c.toNat - 32)).toNat = c.toNat - 32 :=
      toNat_ofNat_valid _ (Or.inl (by omega))
    have h1 : isPySpace (Char.ofNat (c.toNat - 32)) = false := by
      simp only [isPySpace, Bool.or_eq_false_iff, beq_eq_false_iff_ne, ne_eq, ht]
      omega
    have h2 : isPySpace c = false := by
      simp only [isPySpace, Bool.or_eq_false_iff, beq_eq_false_iff_ne, ne_eq]
      omega
    rw [h1, h2]
  · rw [if_neg h]

theorem dropWhile_map_toUpper (l : List Char) :
    List.dropWhile isPySpace (l.map Char.toUpper) =
      (List.dropWhile isPySpace l).map Char.toUpper := by
  rw [List.dropWhile_map]
  have hfun : (isPySpace ∘ Char.toUpper) = isPySpace := by
    funext c
    exact isPySpace_toUpper c
  rw [hfun]

theorem rdropWhile_map_toUpper (l : List Char) :
    List.rdropWhile isPySpace (l.map Char.toUpper) =
      (List.rdropWhile isPySpace l).map Char.toUpper := by
  unfold List.rdropWhile
  rw [← List.map_reverse, dropWhile_map_toUpper, List.map_reverse]

theorem trimChars_map_toUpper (l : List Char) :
    trimChars (l.map Char.toUpper) = (trimChars l).map Char.toUpper := by
  unfold trimChars
  rw [dropWhile_map_toUpper, rdropWhile_map_toUpper]

theorem dropWhile_rdropWhile_dropWhile (l : List Char) :
    List.dropWhile isPySpace
        (List.rdropWhile isPySpace (List.dropWhile isPySpace l)) =
      List.rdropWhile isPySpace (List.dropWhile isPySpace l) := by
  rw [List.dropWhile_eq_self_iff]
  intro hl
  have hpre : List.rdropWhile isPySpace (List.dropWhile isPySpace l) <+:
      List.dropWhile isPySpace l := List.rdropWhile_prefix _ _
  have hlen : 0 < (List.dropWhile isPySpace l).length :=
    Nat.lt_of_lt_of_le hl (hpre.length_le)
  have hy : List.dropWhile isPySpace (List.dropWhile isPySpace l) =
      List.dropWhile isPySpace l := List.dropWhile_idempotent _ _
  have hhead := (List.dropWhile_eq_self_iff).1 hy hlen
  have hg := hpre.getElem (n := 0) hl
  simpa [List.get_eq_getElem, hg] using hhead

theorem trimChars_idem (l : List Char) :
    trimChars (trimChars l) = trimChars l := by
  unfold trimChars
  rw [dropWhile_rdropWhile_dropWhile, List.rdropWhile_idempotent]

theorem map_toUpper_toUpper (l : List Char) :
    (l.map Char.toUpper).map Char.toUpper = l.map Char.toUpper := by
  rw [List.map_map]
  congr 1
  funext c
  exact toUpper_toUpper c

/-- Normalization is idempotent, as Python `strip`/`upper` are. -/
theorem normCode_idem (s : String) : normCode (normCode s) = normCode s := by
  show String.mk ((trimChars ((trimChars s.data).map Char.toUpper)).map Char.toUpper) =
    String.mk ((trimChars s.data).map Char.toUpper)
  rw [trimChars_map_toUpper, trimChars_idem, map_toUpper_toUpper]

/-- Test whether a character is an ASCII capital letter, the character
class of the regex `[A-Z]`. -/
def isUpperAZ (c : Char) : Bool :=
  65 ≤ c.toNat && c.toNat ≤ 90

/-- Embedding of `ISO3_RE.match(c)` for the anchored pattern
`^[A-Z]{3}$` from `src/server.py`: exactly three capital letters.
(Python `$` would also accept a trailing newline, but every string
tested against the pattern in the source has been stripped first.) -/
def iso3Match (s : String) : Bool :=
  s.data.length == 3 && s.data.all isUpperAZ

/-- Test whether a character is an ASCII digit. -/
def isDigitAZ (c : Char) : Bool :=
  48 ≤ c.toNat && c.toNat ≤ 57

/-- Modelled from the spec: the one-letter-plus-two-digit sector code
shape ("one letter followed by two digits").  No such pattern appears in
`src/server.py`; the definition exists to state claims about it. -/
def sectorShape (s : String) : Bool :=
  match s.data with
  | [a, b, c] => isUpperAZ a && isDigitAZ b && isDigitAZ c
  | _ => false

/-- Typed rendering of the ValueError raise sites of `src/server.py`,
one constructor per site family, following the error taxonomy of the
spec.  `invalidFormat field code` is the invalid-ISO3-code message of
`_require_iso3` and of the element check in `_validate_country_list`,
carrying the field name and the offending raw code; `notFoundCountry
code` is the invalid-country-code message of `_validate_country` on a
reference-table miss, carrying the code it was given; `notFoundSector
code` is likewise the invalid-sector-code message of
`_validate_sector`; `invalidType msg` covers the isinstance failures
of `_validate_year` and `_validate_limit`; `outOfRange msg` covers the
year-out-of-range and limit-below-one messages; `rangeInverted` is the
year-from-above-year-to message of `_require_year_range`; `emptyList`
is the non-empty-list message of `_validate_country_list`; `typeError
msg` is a Python TypeError from argument binding; `pyFault msg` is a
dynamic-typing fault (an AttributeError from calling strip on a
non-string), unreachable through the tools. -/
inductive Err where
  | invalidFormat (field : String) (code : String)
  | notFoundCountry (code : String)
  | notFoundSector (code : String)
  | invalidType (msg : String)
  | outOfRange (msg : String)
  | rangeInverted
  | emptyList
  | typeError (msg : String)
  | pyFault (msg : String)
deriving DecidableEq

/-- Python values as they cross the tool boundary: integers, strings,
lists of strings (the only list shape the tools accept), and `None`. -/
inductive PyVal where
  | vint (n : Int)
  | vstr (s : String)
  | vlist (elems : List String)
  | vnone
deriving DecidableEq

/-- One data-store operation, recorded in order of execution: the two
reference-table lookups issued by the validators, and the four
analytical view queries with their bound parameters. -/
inductive Qy where
  | countryLookup (code : String)
  | sectorLookup (code : String)
  | qTopSuppliers (year buyer_country buyer_sector lim : PyVal)
  | qTopSectors (year buyer_country supplier_country lim : PyVal)
  | qCompare (year buyer_sector supplier_country buyer_countries : PyVal)
  | qTimeSeries (buyer_country buyer_sector supplier_country year_from year_to : PyVal)
deriving DecidableEq

/-- The reference tables of the data store: the country codes present in
`ocde_icio.countries` and the activity codes present in
`ocde_icio.activities`. -/
structure Db where
  countries : List String
  activities : List String
deriving DecidableEq

/-- Sequencing for computations that record data-store operations and
may fail: traces accumulate, the first failure aborts. -/
def andThen {α β : Type} (x : List Qy × Except Err α)
    (f : α → List Qy × Except Err β) : List Qy × Except Err β :=
  match x with
  | (t, Except.error e) => (t, Except.error e)
  | (t, Except.ok a) =>
    match f a with
    | (t2, r) => (t ++ t2, r)

/-- Embedding of `_validate_country` from `src/server.py`: when the
aggregate is allowed and the normalized code is the sentinel `OUT`,
return without touching the data store; otherwise look the normalized
code up in `ocde_icio.countries` and fail with the country not-found
`ValueError` when absent. -/
def validate_country (db : Db) (allowOut : Bool) (code : String) :
    List Qy × Except Err Unit :=
  let c := normCountry code
  if allowOut && (c == "OUT") then ([], Except.ok ())
  else
    ([Qy.countryLookup c],
      if db.countries.contains c then Except.ok ()
      else Except.error (Err.notFoundCountry code))

/-- Embedding of `_validate_sector` from `src/server.py`: normalize and
look the code up in `ocde_icio.activities`; fail with the sector
not-found `ValueError` when absent.  There is no shape check of any
kind before the lookup. -/
def validate_sector (db : Db) (code : String) : List Qy × Except Err Unit :=
  let s := normSector code
  ([Qy.sectorLookup s],
    if db.activities.contains s then Except.ok ()
    else Except.error (Err.notFoundSector code))

/-- Embedding of `_validate_year`: `isinstance(y, int)` then the
`1995 <= y <= 2100` policy bounds.  Returns the year to ease reuse (the
Python function returns `None` but its caller `_require_year` returns
the argument unchanged). -/
def validate_year (y : PyVal) : Except Err Int :=
  match y with
  | PyVal.vint n =>
    if n < 1995 || 2100 < n then
      Except.error (Err.outOfRange ("year out of range: " ++ toString n))
    else Except.ok n
  | _ => Except.error (Err.invalidType "year must be an integer")

/-- Embedding of `_validate_limit`: `isinstance(n, int)`, reject
`n < 1`, otherwise return `min(n, 200)`. -/
def validate_limit (n : PyVal) : Except Err Int :=
  match n with
  | PyVal.vint m =>
    if m < 1 then Except.error (Err.outOfRange "limit must be >= 1")
    else Except.ok (min m 200)
  | _ => Except.error (Err.invalidType "limit must be an integer")

/-- The per-element loop of `_validate_country_list`: normalize, check
the `ISO3_RE` pattern, then `_validate_country(cc, allow_out=False)`,
accumulating the normalized codes in order. -/
def countryListLoop (db : Db) : List String → List Qy × Except Err (List String)
  | [] => ([], Except.ok [])
  | c :: rest =>
    let cc := normCountry c
    if iso3Match cc then
      andThen (validate_country db false cc) (fun _ =>
        andThen (countryListLoop db rest) (fun out =>
          ([], Except.ok (cc :: out))))
    else ([], Except.error (Err.invalidFormat "buyer_countries" c))

/-- The de-duplication pass of `_validate_country_list` with its `seen`
set made explicit. -/
def dedupSeen (seen : List String) : List String → List String
  | [] => []
  | c :: rest =>
    if seen.contains c then dedupSeen seen rest
    else c :: dedupSeen (c :: seen) rest

/-- De-duplicate preserving first-occurrence order, the embedding of
the `seen`/`dedup` loop of `_validate_country_list`. -/
def dedupFirst (l : List String) : List String := dedupSeen [] l

/-- Embedding of `_validate_country_list`: reject a non-list or empty
argument, validate every element in order, then de-duplicate keeping
first occurrences. -/
def validate_country_list (db : Db) (codes : PyVal) :
    List Qy × Except Err (List String) :=
  match codes with
  | PyVal.vlist cs =>
    if cs.isEmpty then ([], Except.error Err.emptyList)
    else
      andThen (countryListLoop db cs) (fun out =>
        ([], Except.ok (dedupFirst out)))
  | _ => ([], Except.error Err.emptyList)

/-- Embedding of `_require_iso3`: normalize; accept the sentinel `OUT`
without any lookup when allowed; reject a code that fails `ISO3_RE`
before any lookup; otherwise `_validate_country` and return the
normalized code. -/
def require_iso3 (db : Db) (code : String) (field : String)
    (allowOut : Bool) : List Qy × Except Err String :=
  let c := normCountry code
  if allowOut && (c == "OUT") then ([], Except.ok c)
  else if iso3Match c then
    andThen (validate_country db allowOut c) (fun _ => ([], Except.ok c))
  else ([], Except.error (Err.invalidFormat field code))

/-- Embedding of `_require_sector`: normalize, `_validate_sector`,
return the normalized code.  The `field` argument is unused, as in the
source. -/
def require_sector (db : Db) (code : String) (field : String) :
    List Qy × Except Err String :=
  let s := normSector code
  andThen (validate_sector db s) (fun _ => ([], Except.ok s))

/-- Embedding of `_require_year`: `_validate_year` then return the
argument unchanged. -/
def require_year (y : PyVal) (field : String) : Except Err Int :=
  validate_year y

/-- Embedding of `_require_limit`: returns `_validate_limit(n)`. -/
def require_limit (n : PyVal) (field : String) : Except Err Int :=
  validate_limit n

/-- Embedding of `_require_year_range`: validate each bound
individually (`year_from` first), then fail when
`year_from > year_to`. -/
def require_year_range (year_from year_to : PyVal) : Except Err (Int × Int) :=
  match require_year year_from "year_from" with
  | Except.error e => Except.error e
  | Except.ok y1 =>
    match require_year year_to "year_to" with
    | Except.error e => Except.error e
    | Except.ok y2 =>
      if y2 < y1 then Except.error Err.rangeInverted
      else Except.ok (y1, y2)

/-- Embedding of `_require_iso3_list`: delegates to
`_validate_country_list`. -/
def require_iso3_list (db : Db) (codes : PyVal) (field : String) :
    List Qy × Except Err (List String) :=
  validate_country_list db codes

/-- Lifting of `_require_iso3` to a keyword-argument value.  The tools
declare these fields as strings; a non-string value would make
`_norm_country` fault dynamically (`AttributeError` inside `strip`),
rendered here as `Err.pyFault`. -/
def require_iso3_v (db : Db) (field : String) (allowOut : Bool)
    (v : PyVal) : List Qy × Except Err PyVal :=
  match v with
  | PyVal.vstr s =>
    andThen (require_iso3 db s field allowOut) (fun c =>
      ([], Except.ok (PyVal.vstr c)))
  | _ => ([], Except.error (Err.pyFault "code must be a string"))

/-- Lifting of `_require_sector` to a keyword-argument value. -/
def require_sector_v (db : Db) (field : String) (v : PyVal) :
    List Qy × Except Err PyVal :=
  match v with
  | PyVal.vstr s =>
    andThen (require_sector db s field) (fun c =>
      ([], Except.ok (PyVal.vstr c)))
  | _ => ([], Except.error (Err.pyFault "code must be a string"))

/-- Lifting of `_require_year` to a keyword-argument value (no
data-store access). -/
def require_year_v (field : String) (v : PyVal) :
    List Qy × Except Err PyVal :=
  ([],
    match require_year v field with
    | Except.error e => Except.error e
    | Except.ok n => Except.ok (PyVal.vint n))

/-- Lifting of `_require_limit` to a keyword-argument value (no
data-store access). -/
def require_limit_v (field : String) (v : PyVal) :
    List Qy × Except Err PyVal :=
  ([],
    match require_limit v field with
    | Except.error e => Except.error e
    | Except.ok n => Except.ok (PyVal.vint n))

/-- Lifting of `_require_iso3_list` to a keyword-argument value. -/
def require_iso3_list_v (db : Db) (field : String) (v : PyVal) :
    List Qy × Except Err PyVal :=
  andThen (require_iso3_list db v field) (fun out =>
    ([], Except.ok (PyVal.vlist out)))

/-- One field pass of the `require_valid_inputs` wrapper: the field is
validated (and its kwargs entry replaced) only when it is present with
a non-`None` value, the embedding of
`if f in kwargs and kwargs[f] is not None`. -/
def procField (v : PyVal → List Qy × Except Err PyVal) :
    Option PyVal → List Qy × Except Err (Option PyVal)
  | none => ([], Except.ok none)
  | some PyVal.vnone => ([], Except.ok (some PyVal.vnone))
  | some x => andThen (v x) (fun y => ([], Except.ok (some y)))

/-- The year-range pass of the `require_valid_inputs` wrapper: the
range is validated whenever both field names are present in kwargs —
the source checks presence only (`if f_from in kwargs and f_to in
kwargs`), with no `is not None` guard. -/
def procRange (kf kt : Option PyVal) :
    Except Err (Option PyVal × Option PyVal) :=
  match kf, kt with
  | some vf, some vt =>
    match require_year_range vf vt with
    | Except.error e => Except.error e
    | Except.ok (a, b) =>
      Except.ok (some (PyVal.vint a), some (PyVal.vint b))
  | a, b => Except.ok (a, b)

/-- Python call binding for one parameter: a positional argument wins,
a keyword argument otherwise, the declared default last; both at once
or neither without a default is a `TypeError`. -/
def bindParam (pos kw dflt : Option PyVal) : Except Err PyVal :=
  match pos, kw with
  | some v, none => Except.ok v
  | some _, some _ => Except.error (Err.typeError "multiple values for argument")
  | none, some v => Except.ok v
  | none, none =>
    match dflt with
    | some d => Except.ok d
    | none => Except.error (Err.typeError "missing required argument")

/-- Keyword arguments of `product_dependency_top_suppliers` (and its
alias): `None` means the name is absent from kwargs. -/
structure TSKw where
  buyer_country : Option PyVal
  buyer_sector : Option PyVal
  year : Option PyVal
  limit : Option PyVal
deriving DecidableEq

/-- Parameters of `product_dependency_top_suppliers` after Python call
binding. -/
structure TSBound where
  buyer_country : PyVal
  buyer_sector : PyVal
  year : PyVal
  limit : PyVal
deriving DecidableEq

/-- A row of the view `mcp.v_dep_sector_r0_mcp` as selected by the
top-suppliers query. -/
structure SupplierRow where
  supplier_country : String
  dependency_pct_str : String
deriving DecidableEq

/-- One entry of the `top_suppliers` result list. -/
structure SupplierOut where
  supplier_country : String
  dependency_pct : String
deriving DecidableEq

/-- The result dict of `product_dependency_top_suppliers`. -/
structure TSOut where
  year : PyVal
  buyer_country : PyVal
  buyer_sector : PyVal
  top_suppliers : List SupplierOut
deriving DecidableEq

/-- The validation passes applied by `require_valid_inputs` to the
kwargs of `product_dependency_top_suppliers`, in the fixed wrapper
order: strict ISO3 fields, allow-OUT ISO3 fields (none here), sector
fields, year fields, limit fields. -/
def procTS (db : Db) (k : TSKw) : List Qy × Except Err TSKw :=
  andThen (procField (require_iso3_v db "buyer_country" false) k.buyer_country) (fun bc =>
  andThen (procField (require_sector_v db "buyer_sector") k.buyer_sector) (fun bs =>
  andThen (procField (require_year_v "year") k.year) (fun y =>
  andThen (procField (require_limit_v "limit") k.limit) (fun l =>
  ([], Except.ok (TSKw.mk bc bs y l))))))

/-- Python binding of `(*args, **kwargs)` against the signature
`(buyer_country, buyer_sector, year=2022, limit=10)`. -/
def bindTS (args : List PyVal) (k : TSKw) : Except Err TSBound :=
  if 4 < args.length then Except.error (Err.typeError "too many positional arguments")
  else
    match bindParam args[0]? k.buyer_country none with
    | Except.error e => Except.error e
    | Except.ok bc =>
      match bindParam args[1]? k.buyer_sector none with
      | Except.error e => Except.error e
      | Except.ok bs =>
        match bindParam args[2]? k.year (some (PyVal.vint 2022)) with
        | Except.error e => Except.error e
        | Except.ok y =>
          match bindParam args[3]? k.limit (some (PyVal.vint 10)) with
          | Except.error e => Except.error e
          | Except.ok l => Except.ok (TSBound.mk bc bs y l)

/-- The undecorated body of `product_dependency_top_suppliers`: run the
top-suppliers view query with the bound parameters and shape the rows
into the result dict, renaming `dependency_pct_str` to
`dependency_pct` untouched. -/
def bodyTS (orc : PyVal → PyVal → PyVal → PyVal → List SupplierRow)
    (b : TSBound) : List Qy × Except Err TSOut :=
  ([Qy.qTopSuppliers b.year b.buyer_country b.buyer_sector b.limit],
    Except.ok (TSOut.mk b.year b.buyer_country b.buyer_sector
      ((orc b.year b.buyer_country b.buyer_sector b.limit).map
        (fun r => SupplierOut.mk r.supplier_country r.dependency_pct_str))))

/-- Embedding of the decorated `product_dependency_top_suppliers`: the
`require_valid_inputs` wrapper validates kwargs, then the body runs on
the bound arguments.  `orc` is the data-store view. -/
def product_dependency_top_suppliers (db : Db)
    (orc : PyVal → PyVal → PyVal → PyVal → List SupplierRow)
    (args : List PyVal) (k : TSKw) : List Qy × Except Err TSOut :=
  andThen (procTS db k) (fun k2 =>
    match bindTS args k2 with
    | Except.error e => ([], Except.error e)
    | Except.ok b => bodyTS orc b)

/-- An empty kwargs mapping for the top-suppliers signature. -/
def emptyTSKw : TSKw := TSKw.mk none none none none

/-- Embedding of the decorated `sector_dependency_top_suppliers` alias:
same wrapper configuration, body delegates to the decorated primary
with purely positional arguments. -/
def sector_dependency_top_suppliers (db : Db)
    (orc : PyVal → PyVal → PyVal → PyVal → List SupplierRow)
    (args : List PyVal) (k : TSKw) : List Qy × Except Err TSOut :=
  andThen (procTS db k) (fun k2 =>
    match bindTS args k2 with
    | Except.error e => ([], Except.error e)
    | Except.ok b =>
      product_dependency_top_suppliers db orc
        [b.buyer_country, b.buyer_sector, b.year, b.limit] emptyTSKw)

/-- Keyword arguments of `product_dependency_top_sectors` (and its
alias). -/
structure SecKw where
  buyer_country : Option PyVal
  supplier_country : Option PyVal
  year : Option PyVal
  limit : Option PyVal
deriving DecidableEq

/-- Parameters of `product_dependency_top_sectors` after binding. -/
structure SecBound where
  buyer_country : PyVal
  supplier_country : PyVal
  year : PyVal
  limit : PyVal
deriving DecidableEq

/-- A row of the view `mcp.v_dep_top_sectors_by_supplier_mcp`. -/
structure SectorRow where
  buyer_sector : String
  buyer_sector_label : String
  dependency_pct_str : String
deriving DecidableEq

/-- One entry of the `top_sectors` result list. -/
structure SectorOut where
  buyer_sector : String
  buyer_sector_label : String
  dependency_pct : String
deriving DecidableEq

/-- The result dict of `product_dependency_top_sectors`. -/
structure SecOut where
  year : PyVal
  buyer_country : PyVal
  supplier_country : PyVal
  top_sectors : List SectorOut
deriving DecidableEq

/-- Validation passes for the kwargs of
`product_dependency_top_sectors`: strict ISO3 `buyer_country`,
allow-OUT ISO3 `supplier_country`, then year and limit. -/
def procSec (db : Db) (k : SecKw) : List Qy × Except Err SecKw :=
  andThen (procField (require_iso3_v db "buyer_country" false) k.buyer_country) (fun bc =>
  andThen (procField (require_iso3_v db "supplier_country" true) k.supplier_country) (fun sc =>
  andThen (procField (require_year_v "year") k.year) (fun y =>
  andThen (procField (require_limit_v "limit") k.limit) (fun l =>
  ([], Except.ok (SecKw.mk bc sc y l))))))

/-- Python binding against
`(buyer_country, supplier_country, year=2022, limit=10)`. -/
def bindSec (args : List PyVal) (k : SecKw) : Except Err SecBound :=
  if 4 < args.length then Except.error (Err.typeError "too many positional arguments")
  else
    match bindParam args[0]? k.buyer_country none with
    | Except.error e => Except.error e
    | Except.ok bc =>
      match bindParam args[1]? k.supplier_country none with
      | Except.error e => Except.error e
      | Except.ok sc =>
        match bindParam args[2]? k.year (some (PyVal.vint 2022)) with
        | Except.error e => Except.error e
        | Except.ok y =>
          match bindParam args[3]? k.limit (some (PyVal.vint 10)) with
          | Except.error e => Except.error e
          | Except.ok l => Except.ok (SecBound.mk bc sc y l)

/-- The undecorated body of `product_dependency_top_sectors`. -/
def bodySec (orc : PyVal → PyVal → PyVal → PyVal → List SectorRow)
    (b : SecBound) : List Qy × Except Err SecOut :=
  ([Qy.qTopSectors b.year b.buyer_country b.supplier_country b.limit],
    Except.ok (SecOut.mk b.year b.buyer_country b.supplier_country
      ((orc b.year b.buyer_country b.supplier_country b.limit).map
        (fun r => SectorOut.mk r.buyer_sector r.buyer_sector_label r.dependency_pct_str))))

/-- Embedding of the decorated `product_dependency_top_sectors`. -/
def product_dependency_top_sectors (db : Db)
    (orc : PyVal → PyVal → PyVal → PyVal → List SectorRow)
    (args : List PyVal) (k : SecKw) : List Qy × Except Err SecOut :=
  andThen (procSec db k) (fun k2 =>
    match bindSec args k2 with
    | Except.error e => ([], Except.error e)
    | Except.ok b => bodySec orc b)

/-- An empty kwargs mapping for the top-sectors signature. -/
def emptySecKw : SecKw := SecKw.mk none none none none

/-- Embedding of the decorated `sector_dependency_top_sectors` alias. -/
def sector_dependency_top_sectors (db : Db)
    (orc : PyVal → PyVal → PyVal → PyVal → List SectorRow)
    (args : List PyVal) (k : SecKw) : List Qy × Except Err SecOut :=
  andThen (procSec db k) (fun k2 =>
    match bindSec args k2 with
    | Except.error e => ([], Except.error e)
    | Except.ok b =>
      product_dependency_top_sectors db orc
        [b.buyer_country, b.supplier_country, b.year, b.limit] emptySecKw)

/-- Keyword arguments of `product_dependency_compare_countries` (and
its alias). -/
structure CmpKw where
  buyer_countries : Option PyVal
  buyer_sector : Option PyVal
  supplier_country : Option PyVal
  year : Option PyVal
deriving DecidableEq

/-- Parameters of `product_dependency_compare_countries` after
binding. -/
structure CmpBound where
  buyer_countries : PyVal
  buyer_sector : PyVal
  supplier_country : PyVal
  year : PyVal
deriving DecidableEq

/-- A row of the view `mcp.v_dep_compare_countries_mcp`. -/
structure CompareRow where
  buyer_country : String
  buyer_country_name : String
  dependency_pct_str : String
deriving DecidableEq

/-- One entry of the `countries` result list. -/
structure CompareOut where
  buyer_country : String
  buyer_country_name : String
  dependency_pct : String
deriving DecidableEq

/-- The result dict of `product_dependency_compare_countries`. -/
structure CmpOut where
  year : PyVal
  buyer_sector : PyVal
  supplier_country : PyVal
  countries : List CompareOut
deriving DecidableEq

/-- Validation passes for the kwargs of
`product_dependency_compare_countries`, in the fixed wrapper order:
allow-OUT ISO3 `supplier_country`, sector `buyer_sector`, year `year`,
then the ISO3 list `buyer_countries`. -/
def procCmp (db : Db) (k : CmpKw) : List Qy × Except Err CmpKw :=
  andThen (procField (require_iso3_v db "supplier_country" true) k.supplier_country) (fun sc =>
  andThen (procField (require_sector_v db "buyer_sector") k.buyer_sector) (fun bs =>
  andThen (procField (require_year_v "year") k.year) (fun y =>
  andThen (procField (require_iso3_list_v db "buyer_countries") k.buyer_countries) (fun bcs =>
  ([], Except.ok (CmpKw.mk bcs bs sc y))))))

/-- Python binding against
`(buyer_countries, buyer_sector, supplier_country, year=2022)`. -/
def bindCmp (args : List PyVal) (k : CmpKw) : Except Err CmpBound :=
  if 4 < args.length then Except.error (Err.typeError "too many positional arguments")
  else
    match bindParam args[0]? k.buyer_countries none with
    | Except.error e => Except.error e
    | Except.ok bcs =>
      match bindParam args[1]? k.buyer_sector none with
      | Except.error e => Except.error e
      | Except.ok bs =>
        match bindParam args[2]? k.supplier_country none with
        | Except.error e => Except.error e
        | Except.ok sc =>
          match bindParam args[3]? k.year (some (PyVal.vint 2022)) with
          | Except.error e => Except.error e
          | Except.ok y => Except.ok (CmpBound.mk bcs bs sc y)

/-- The undecorated body of `product_dependency_compare_countries`. -/
def bodyCmp (orc : PyVal → PyVal → PyVal → PyVal → List CompareRow)
    (b : CmpBound) : List Qy × Except Err CmpOut :=
  ([Qy.qCompare b.year b.buyer_sector b.supplier_country b.buyer_countries],
    Except.ok (CmpOut.mk b.year b.buyer_sector b.supplier_country
      ((orc b.year b.buyer_sector b.supplier_country b.buyer_countries).map
        (fun r => CompareOut.mk r.buyer_country r.buyer_country_name r.dependency_pct_str))))

/-- Embedding of the decorated `product_dependency_compare_countries`. -/
def product_dependency_compare_countries (db : Db)
    (orc : PyVal → PyVal → PyVal → PyVal → List CompareRow)
    (args : List PyVal) (k : CmpKw) : List Qy × Except Err CmpOut :=
  andThen (procCmp db k) (fun k2 =>
    match bindCmp args k2 with
    | Except.error e => ([], Except.error e)
    | Except.ok b => bodyCmp orc b)

/-- An empty kwargs mapping for the compare-countries signature. -/
def emptyCmpKw : CmpKw := CmpKw.mk none none none none

/-- Embedding of the decorated `sector_dependency_compare_countries`
alias. -/
def sector_dependency_compare_countries (db : Db)
    (orc : PyVal → PyVal → PyVal → PyVal → List CompareRow)
    (args : List PyVal) (k : CmpKw) : List Qy × Except Err CmpOut :=
  andThen (procCmp db k) (fun k2 =>
    match bindCmp args k2 with
    | Except.error e => ([], Except.error e)
    | Except.ok b =>
      product_dependency_compare_countries db orc
        [b.buyer_countries, b.buyer_sector, b.supplier_country, b.year] emptyCmpKw)

/-- Keyword arguments of `product_dependency_time_series` (and its
alias). -/
structure TimKw where
  buyer_country : Option PyVal
  buyer_sector : Option PyVal
  supplier_country : Option PyVal
  year_from : Option PyVal
  year_to : Option PyVal
deriving DecidableEq

/-- Parameters of `product_dependency_time_series` after binding. -/
structure TimBound where
  buyer_country : PyVal
  buyer_sector : PyVal
  supplier_country : PyVal
  year_from : PyVal
  year_to : PyVal
deriving DecidableEq

/-- A row of the view `mcp.v_dep_time_series_mcp`. -/
structure TimeRow where
  year : Int
  dependency_pct_str : String
deriving DecidableEq

/-- One entry of the `series` result list. -/
structure TimePoint where
  year : Int
  dependency_pct : String
deriving DecidableEq

/-- The result dict of `product_dependency_time_series`. -/
structure TimOut where
  buyer_country : PyVal
  buyer_sector : PyVal
  supplier_country : PyVal
  series : List TimePoint
deriving DecidableEq

/-- Validation passes for the kwargs of
`product_dependency_time_series`: strict ISO3 `buyer_country`,
allow-OUT ISO3 `supplier_country`, sector `buyer_sector`, then the
year-range pass on `year_from`/`year_to`. -/
def procTim (db : Db) (k : TimKw) : List Qy × Except Err TimKw :=
  andThen (procField (require_iso3_v db "buyer_country" false) k.buyer_country) (fun bc =>
  andThen (procField (require_iso3_v db "supplier_country" true) k.supplier_country) (fun sc =>
  andThen (procField (require_sector_v db "buyer_sector") k.buyer_sector) (fun bs =>
  match procRange k.year_from k.year_to with
  | Except.error e => ([], Except.error e)
  | Except.ok (yf, yt) => ([], Except.ok (TimKw.mk bc bs sc yf yt)))))

/-- Python binding against `(buyer_country, buyer_sector,
supplier_country, year_from=2016, year_to=2022)`. -/
def bindTim (args : List PyVal) (k : TimKw) : Except Err TimBound :=
  if 5 < args.length then Except.error (Err.typeError "too many positional arguments")
  else
    match bindParam args[0]? k.buyer_country none with
    | Except.error e => Except.error e
    | Except.ok bc =>
      match bindParam args[1]? k.buyer_sector none with
      | Except.error e => Except.error e
      | Except.ok bs =>
        match bindParam args[2]? k.supplier_country none with
        | Except.error e => Except.error e
        | Except.ok sc =>
          match bindParam args[3]? k.year_from (some (PyVal.vint 2016)) with
          | Except.error e => Except.error e
          | Except.ok yf =>
            match bindParam args[4]? k.year_to (some (PyVal.vint 2022)) with
            | Except.error e => Except.error e
            | Except.ok yt => Except.ok (TimBound.mk bc bs sc yf yt)

/-- The undecorated body of `product_dependency_time_series`. -/
def bodyTim (orc : PyVal → PyVal → PyVal → PyVal → PyVal → List TimeRow)
    (b : TimBound) : List Qy × Except Err TimOut :=
  ([Qy.qTimeSeries b.buyer_country b.buyer_sector b.supplier_country b.year_from b.year_to],
    Except.ok (TimOut.mk b.buyer_country b.buyer_sector b.supplier_country
      ((orc b.buyer_country b.buyer_sector b.supplier_country b.year_from b.year_to).map
        (fun r => TimePoint.mk r.year r.dependency_pct_str))))

/-- Embedding of the decorated `product_dependency_time_series`. -/
def product_dependency_time_series (db : Db)
    (orc : PyVal → PyVal → PyVal → PyVal → PyVal → List TimeRow)
    (args : List PyVal) (k : TimKw) : List Qy × Except Err TimOut :=
  andThen (procTim db k) (fun k2 =>
    match bindTim args k2 with
    | Except.error e => ([], Except.error e)
    | Except.ok b => bodyTim orc b)

/-- An empty kwargs mapping for the time-series signature. -/
def emptyTimKw : TimKw := TimKw.mk none none none none none

/-- Embedding of the decorated `sector_dependency_time_series` alias. -/
def sector_dependency_time_series (db : Db)
    (orc : PyVal → PyVal → PyVal → PyVal → PyVal → List TimeRow)
    (args : List PyVal) (k : TimKw) : List Qy × Except Err TimOut :=
  andThen (procTim db k) (fun k2 =>
    match bindTim args k2 with
    | Except.error e => ([], Except.error e)
    | Except.ok b =>
      product_dependency_time_series db orc
        [b.buyer_country, b.buyer_sector, b.supplier_country, b.year_from, b.year_to] emptyTimKw)

/-- Modelled from the spec: the number of hundredths of a percent after
rounding, i.e. the ratio times 100, rounded half-up (ties away from
zero) to 2 decimal places, scaled by 100 to an integer.  This is the
rounding performed inside the database views (`dependency_pct_2dp` /
`dependency_pct_str`), which are not part of `src/`. -/
def pctCentis (q : Rat) : Int :=
  if 0 ≤ q then Rat.floor (q * 10000 + 1 / 2)
  else -Rat.floor (-q * 10000 + 1 / 2)

/-- Two-digit zero-padded rendering of a value below 100. -/
def twoDigits (m : Nat) : String :=
  if m < 10 then "0" ++ toString m else toString m

/-- Modelled from the spec: a dependency ratio, a fraction in the
interval from 0 to 1 (data-model invariant of the Dependency
Record). -/
def DepShare : Type := { q : Rat // 0 ≤ q ∧ q ≤ 1 }

/-- Modelled from the spec: the percentage string of a dependency
ratio as produced by the views in the `dependency_pct_str` column — ratio
times 100, rounded half-up to 2 decimals, rendered with the locale
decimal comma and a trailing percent sign; a SQL `NULL` ratio renders
as the empty string. -/
def formatPct : Option DepShare → String
  | none => ""
  | some d =>
    (if pctCentis d.val < 0 then "-" else "") ++
      toString ((pctCentis d.val).natAbs / 100) ++ "," ++
      twoDigits ((pctCentis d.val).natAbs % 100) ++ "%"

/-- Modelled from the spec: a raw dependency record row as the view
sees it, before formatting — a supplier country and a nullable
dependency ratio. -/
structure ViewRow where
  supplier_country : String
  dep : Option DepShare

/-- Modelled from the spec: the view computes `dependency_pct_str`
from the raw ratio by `formatPct`. -/
def viewFormat (r : ViewRow) : SupplierRow :=
  SupplierRow.mk r.supplier_country (formatPct r.dep)

deriving instance DecidableEq for Except

/-- A concrete reference-table instance used by witnesses. -/
def dbRef : Db := Db.mk ["FRA", "DEU", "CHN", "USA"] ["C26", "C20"]

/-- Marks the analytical view queries, as opposed to the validator
reference-table lookups. -/
def isAnalytical : Qy → Bool
  | Qy.countryLookup _ => false
  | Qy.sectorLookup _ => false
  | _ => true

/-- C5: limit validation returns `min(n, 200)` for every integer
`n ≥ 1`; for every integer `n < 1` it fails with the out-of-range
error, and for every non-integer value it fails with the type error —
it never clamps upward. -/
theorem c5_validate_limit :
    (∀ n : Int, 1 ≤ n →
      validate_limit (PyVal.vint n) = Except.ok (min n 200)) ∧
    (∀ n : Int, n < 1 →
      validate_limit (PyVal.vint n) =
        Except.error (Err.outOfRange "limit must be >= 1")) ∧
    (∀ v : PyVal, (∀ n : Int, v ≠ PyVal.vint n) →
      validate_limit v =
        Except.error (Err.invalidType "limit must be an integer")) := by
  refine ⟨?_, ?_, ?_⟩
  · intro n h
    show (if n < 1 then _ else _) = _
    rw [if_neg (by omega)]
  · intro n h
    show (if n < 1 then _ else _) = _
    rw [if_pos h]
  · intro v hv
    cases v with
    | vint n => exact absurd rfl (hv n)
    | vstr s => rfl
    | vlist l => rfl
    | vnone => rfl

/-- Witness for C5 at concrete inputs. -/
theorem c5_witness :
    validate_limit (PyVal.vint 500) = Except.ok 200 ∧
    validate_limit (PyVal.vint 0) =
      Except.error (Err.outOfRange "limit must be >= 1") ∧
    validate_limit (PyVal.vstr "many") =
      Except.error (Err.invalidType "limit must be an integer") := by
  refine ⟨?_, ?_, ?_⟩
  · have h := c5_validate_limit.1 500 (by omega)
    have hm : (min (500 : Int) 200) = 200 := by omega
    rw [h, hm]
  · exact c5_validate_limit.2.1 0 (by omega)
  · refine c5_validate_limit.2.2 (PyVal.vstr "many") ?_
    intro n h
    cases h

theorem require_year_range_eval :
    (∀ a b : Int, 1995 ≤ a → a ≤ b → b ≤ 2100 →
      require_year_range (PyVal.vint a) (PyVal.vint b) = Except.ok (a, b)) ∧
    (∀ a b : Int, 1995 ≤ b → b < a → a ≤ 2100 →
      require_year_range (PyVal.vint a) (PyVal.vint b) =
        Except.error Err.rangeInverted) ∧
    (∀ a : Int, ∀ w : PyVal, (a < 1995 ∨ 2100 < a) →
      require_year_range (PyVal.vint a) w =
        Except.error (Err.outOfRange ("year out of range: " ++ toString a))) ∧
    (∀ v w : PyVal, (∀ n : Int, v ≠ PyVal.vint n) →
      require_year_range v w =
        Except.error (Err.invalidType "year must be an integer")) := by
  refine ⟨?_, ?_, ?_, ?_⟩
  · intro a b ha hab hb
    show (match (if a < 1995 || 2100 < a then _ else _ : Except Err Int) with
      | Except.error e => Except.error e
      | Except.ok y1 => _) = _
    rw [if_neg (by simp only [Bool.or_eq_true, decide_eq_true_eq]; omega)]
    show (match (if b < 1995 || 2100 < b then _ else _ : Except Err Int) with
      | Except.error e => Except.error e
      | Except.ok y2 => _) = _
    rw [if_neg (by simp only [Bool.or_eq_true, decide_eq_true_eq]; omega)]
    show (if b < a then _ else _) = _
    rw [if_neg (by omega)]
  · intro a b hb hba ha
    show (match (if a < 1995 || 2100 < a then _ else _ : Except Err Int) with
      | Except.error e => Except.error e
      | Except.ok y1 => _) = _
    rw [if_neg (by simp only [Bool.or_eq_true, decide_eq_true_eq]; omega)]
    show (match (if b < 1995 || 2100 < b then _ else _ : Except Err Int) with
      | Except.error e => Except.error e
      | Except.ok y2 => _) = _
    rw [if_neg (by simp only [Bool.or_eq_true, decide_eq_true_eq]; omega)]
    show (if b < a then _ else _) = _
    rw [if_pos hba]
  · intro a w ha
    show (match (if a < 1995 || 2100 < a then _ else _ : Except Err Int) with
      | Except.error e => Except.error e
      | Except.ok y1 => _) = _
    rw [if_pos (by simp only [Bool.or_eq_true, decide_eq_true_eq]; omega)]
  · intro v w hv
    cases v with
    | vint n => exact absurd rfl (hv n)
    | vstr s => rfl
    | vlist l => rfl
    | vnone => rfl

/-- C7: year-range validation returns `(a, b)` unchanged when both
bounds are integers inside the policy interval and `a ≤ b`; fails with
the range-inverted error when both bounds are valid but `a > b`; and
validates each bound individually first — an out-of-range or
non-integer first bound fails with the error of that bound even when the
pair is also inverted, the second bound not yet examined. -/
theorem c7_require_year_range :
    (∀ a b : Int, 1995 ≤ a → a ≤ b → b ≤ 2100 →
      require_year_range (PyVal.vint a) (PyVal.vint b) = Except.ok (a, b)) ∧
    (∀ a b : Int, 1995 ≤ b → b < a → a ≤ 2100 →
      require_year_range (PyVal.vint a) (PyVal.vint b) =
        Except.error Err.rangeInverted) ∧
    (∀ a : Int, ∀ w : PyVal, (a < 1995 ∨ 2100 < a) →
      require_year_range (PyVal.vint a) w =
        Except.error (Err.outOfRange ("year out of range: " ++ toString a))) ∧
    (∀ v w : PyVal, (∀ n : Int, v ≠ PyVal.vint n) →
      require_year_range v w =
        Except.error (Err.invalidType "year must be an integer")) :=
  require_year_range_eval

/-- Witness for C7 at concrete inputs, among them the spec scenario
`year_from=2022, year_to=2016` scenario. -/
theorem c7_witness :
    require_year_range (PyVal.vint 2016) (PyVal.vint 2022) =
      Except.ok (2016, 2022) ∧
    require_year_range (PyVal.vint 2022) (PyVal.vint 2016) =
      Except.error Err.rangeInverted ∧
    require_year_range (PyVal.vint 3000) (PyVal.vint 2000) =
      Except.error (Err.outOfRange ("year out of range: " ++ toString (3000 : Int))) ∧
    require_year_range PyVal.vnone (PyVal.vint 2022) =
      Except.error (Err.invalidType "year must be an integer") := by
  refine ⟨?_, ?_, ?_, ?_⟩
  · exact c7_require_year_range.1 2016 2022 (by omega) (by omega) (by omega)
  · exact c7_require_year_range.2.1 2022 2016 (by omega) (by omega) (by omega)
  · exact c7_require_year_range.2.2.1 3000 (PyVal.vint 2000) (by omega)
  · refine c7_require_year_range.2.2.2 PyVal.vnone (PyVal.vint 2022) ?_
    intro n h
    cases h

theorem validate_country_notOut (db : Db) (allowOut : Bool) (c : String)
    (hn : normCode c = c) (hguard : (allowOut && (c == "OUT")) = false) :
    validate_country db allowOut c =
      ([Qy.countryLookup c],
        if db.countries.contains c then Except.ok ()
        else Except.error (Err.notFoundCountry c)) := by
  simp only [validate_country, normCountry, hn, hguard, Bool.false_eq_true,
    if_false]

theorem validate_sector_eval (db : Db) (c : String) (hn : normCode c = c) :
    validate_sector db c =
      ([Qy.sectorLookup c],
        if db.activities.contains c then Except.ok ()
        else Except.error (Err.notFoundSector c)) := by
  simp only [validate_sector, normSector, hn]

/-- C1 (counterexample): the input `"!!"` is not of the
one-letter-plus-two-digit sector shape, yet sector validation performs
a reference-table lookup for it and fails with the sector not-found
error, not with a format error and not before the lookup. -/
theorem c1_counterexample :
    sectorShape (normCode "!!") = false ∧
    require_sector dbRef "!!" "buyer_sector" =
      ([Qy.sectorLookup "!!"], Except.error (Err.notFoundSector "!!")) ∧
    (require_sector dbRef "!!" "buyer_sector").1 ≠ [] ∧
    (∀ f c, (require_sector dbRef "!!" "buyer_sector").2 ≠
      Except.error (Err.invalidFormat f c)) := by
  refine ⟨by decide, by decide, by decide, ?_⟩
  intro f c h
  rw [(by decide : (require_sector dbRef "!!" "buyer_sector").2 =
    Except.error (Err.notFoundSector "!!"))] at h
  simp at h

theorem require_sector_eval (db : Db) (code field : String) :
    (db.activities.contains (normCode code) = false →
      require_sector db code field =
        ([Qy.sectorLookup (normCode code)],
          Except.error (Err.notFoundSector (normCode code)))) ∧
    (db.activities.contains (normCode code) = true →
      require_sector db code field =
        ([Qy.sectorLookup (normCode code)], Except.ok (normCode code))) := by
  have hv := validate_sector_eval db (normCode code) (normCode_idem code)
  constructor
  · intro h
    simp only [require_sector, normSector, hv, h, if_false, andThen,
      Bool.false_eq_true]
  · intro h
    simp only [require_sector, normSector, hv, h, if_true, andThen,
      List.append_nil]

/-- C1 (amended): sector validation performs no shape pre-check at
all.  For every input, the normalized code is looked up in the
reference sector set — exactly one lookup, which always happens — and
the call fails with the sector not-found error precisely when the
normalized code is absent from the set, whether or not it is
well-shaped; a format error is never produced for sectors. -/
theorem c1_sector_validation (db : Db) (code field : String) :
    (db.activities.contains (normCode code) = false →
      require_sector db code field =
        ([Qy.sectorLookup (normCode code)],
          Except.error (Err.notFoundSector (normCode code)))) ∧
    (db.activities.contains (normCode code) = true →
      require_sector db code field =
        ([Qy.sectorLookup (normCode code)], Except.ok (normCode code))) :=
  require_sector_eval db code field

/-- Witness for the amended C1: a malformed code absent from the
reference set, and a well-shaped present one. -/
theorem c1_sector_validation_witness :
    require_sector dbRef "!?" "buyer_sector" =
      ([Qy.sectorLookup "!?"], Except.error (Err.notFoundSector "!?")) ∧
    require_sector dbRef " c26 " "buyer_sector" =
      ([Qy.sectorLookup "C26"], Except.ok "C26") := by
  constructor
  · have h := (c1_sector_validation dbRef "!?" "buyer_sector").1 (by decide)
    rw [h]
    decide
  · have h := (c1_sector_validation dbRef " c26 " "buyer_sector").2 (by decide)
    rw [h]
    decide

theorem require_iso3_eval (db : Db) (code field : String)
    (allowOut : Bool) :
    (allowOut = true → normCode code = "OUT" →
      require_iso3 db code field allowOut = ([], Except.ok "OUT")) ∧
    (¬(allowOut = true ∧ normCode code = "OUT") →
      iso3Match (normCode code) = false →
      require_iso3 db code field allowOut =
        ([], Except.error (Err.invalidFormat field code))) ∧
    (¬(allowOut = true ∧ normCode code = "OUT") →
      iso3Match (normCode code) = true →
      db.countries.contains (normCode code) = false →
      require_iso3 db code field allowOut =
        ([Qy.countryLookup (normCode code)],
          Except.error (Err.notFoundCountry (normCode code)))) ∧
    (¬(allowOut = true ∧ normCode code = "OUT") →
      iso3Match (normCode code) = true →
      db.countries.contains (normCode code) = true →
      require_iso3 db code field allowOut =
        ([Qy.countryLookup (normCode code)], Except.ok (normCode code))) := by
  refine ⟨?_, ?_, ?_, ?_⟩
  · intro ha hc
    simp only [require_iso3, normCountry, hc, ha, Bool.true_and, beq_self_eq_true,
      if_true]
  · intro hno hfmt
    have hguard : (allowOut && (normCode code == "OUT")) = false := by
      rcases Bool.eq_false_or_eq_true allowOut with h | h
      · rw [h, Bool.true_and]
        exact beq_eq_false_iff_ne.2 (fun hc => hno ⟨h, hc⟩)
      · rw [h, Bool.false_and]
    simp only [require_iso3, normCountry, hguard, Bool.false_eq_true, if_false,
      hfmt]
  · intro hno hfmt hdb
    have hguard : (allowOut && (normCode code == "OUT")) = false := by
      rcases Bool.eq_false_or_eq_true allowOut with h | h
      · rw [h, Bool.true_and]
        exact beq_eq_false_iff_ne.2 (fun hc => hno ⟨h, hc⟩)
      · rw [h, Bool.false_and]
    have hv := validate_country_notOut db allowOut (normCode code)
      (normCode_idem code) hguard
    simp only [require_iso3, normCountry, hguard, Bool.false_eq_true, if_false,
      hfmt, if_true, hv, hdb, andThen]
  · intro hno hfmt hdb
    have hguard : (allowOut && (normCode code == "OUT")) = false := by
      rcases Bool.eq_false_or_eq_true allowOut with h | h
      · rw [h, Bool.true_and]
        exact beq_eq_false_iff_ne.2 (fun hc => hno ⟨h, hc⟩)
      · rw [h, Bool.false_and]
    have hv := validate_country_notOut db allowOut (normCode code)
      (normCode_idem code) hguard
    simp only [require_iso3, normCountry, hguard, Bool.false_eq_true, if_false,
      hfmt, if_true, hv, hdb, andThen, List.append_nil]

/-- C6: country-field validation accepts the aggregate sentinel with
the reference lookup bypassed entirely when the field permits it;
otherwise a normalized code failing the three-letter pattern is
rejected with the format error before any lookup, and a well-shaped
code is looked up in the reference country set, failing with the
country not-found error exactly when absent. -/
theorem c6_country_field_validation (db : Db) (code field : String)
    (allowOut : Bool) :
    (allowOut = true → normCode code = "OUT" →
      require_iso3 db code field allowOut = ([], Except.ok "OUT")) ∧
    (¬(allowOut = true ∧ normCode code = "OUT") →
      iso3Match (normCode code) = false →
      require_iso3 db code field allowOut =
        ([], Except.error (Err.invalidFormat field code))) ∧
    (¬(allowOut = true ∧ normCode code = "OUT") →
      iso3Match (normCode code) = true →
      db.countries.contains (normCode code) = false →
      require_iso3 db code field allowOut =
        ([Qy.countryLookup (normCode code)],
          Except.error (Err.notFoundCountry (normCode code)))) ∧
    (¬(allowOut = true ∧ normCode code = "OUT") →
      iso3Match (normCode code) = true →
      db.countries.contains (normCode code) = true →
      require_iso3 db code field allowOut =
        ([Qy.countryLookup (normCode code)], Except.ok (normCode code))) :=
  require_iso3_eval db code field allowOut

/-- Witness for C6: the sentinel with aggregate allowed (no lookup),
the sentinel variant rejected by lookup when disallowed, a malformed
code, a well-shaped absent code, and a valid lowercase code. -/
theorem c6_witness :
    require_iso3 dbRef " out " "supplier_country" true = ([], Except.ok "OUT") ∧
    require_iso3 dbRef "F1" "buyer_country" false =
      ([], Except.error (Err.invalidFormat "buyer_country" "F1")) ∧
    require_iso3 dbRef "XXX" "buyer_country" false =
      ([Qy.countryLookup "XXX"], Except.error (Err.notFoundCountry "XXX")) ∧
    require_iso3 dbRef "OUT" "buyer_country" false =
      ([Qy.countryLookup "OUT"], Except.error (Err.notFoundCountry "OUT")) ∧
    require_iso3 dbRef "fra" "buyer_country" false =
      ([Qy.countryLookup "FRA"], Except.ok "FRA") := by
  refine ⟨?_, ?_, ?_, ?_, ?_⟩
  · have h := (c6_country_field_validation dbRef " out " "supplier_country"
      true).1 rfl (by decide)
    rw [h]
  · exact (c6_country_field_validation dbRef "F1" "buyer_country" false).2.1
      (by simp) (by decide)
  · have h := (c6_country_field_validation dbRef "XXX" "buyer_country"
      false).2.2.1 (by simp) (by decide) (by decide)
    rw [h]
    decide
  · have h := (c6_country_field_validation dbRef "OUT" "buyer_country"
      false).2.2.1 (by simp) (by decide) (by decide)
    rw [h]
    decide
  · have h := (c6_country_field_validation dbRef "fra" "buyer_country"
      false).2.2.2 (by simp) (by decide) (by decide)
    rw [h]
    decide

theorem countryListLoop_ok (db : Db) (cs : List String)
    (h : ∀ c ∈ cs, iso3Match (normCode c) = true ∧
      db.countries.contains (normCode c) = true) :
    countryListLoop db cs =
      (cs.map (fun c => Qy.countryLookup (normCode c)),
        Except.ok (cs.map normCode)) := by
  induction cs with
  | nil => rfl
  | cons c rest ih =>
    obtain ⟨h1, h2⟩ := h c (List.mem_cons_self c rest)
    have hv := validate_country_notOut db false (normCode c) (normCode_idem c)
      (by rw [Bool.false_and])
    have ihh := ih (fun x hx => h x (List.mem_cons_of_mem c hx))
    simp only [countryListLoop, normCountry, h1, if_true, hv, h2, andThen, ihh,
      List.append_nil, List.map_cons, List.nil_append, List.cons_append]

theorem countryListLoop_sentinel (db : Db) (cs : List String)
    (hall : ∀ c ∈ cs, iso3Match (normCode c) = true ∧
      (db.countries.contains (normCode c) = true ∨ normCode c = "OUT"))
    (hout : db.countries.contains "OUT" = false)
    (hex : ∃ c ∈ cs, normCode c = "OUT") :
    ∃ t : List Qy,
      countryListLoop db cs = (t, Except.error (Err.notFoundCountry "OUT")) ∧
      ∀ q ∈ t, isAnalytical q = false := by
  induction cs with
  | nil => simp at hex
  | cons c rest ih =>
    obtain ⟨h1, h2⟩ := hall c (List.mem_cons_self c rest)
    have hv := validate_country_notOut db false (normCode c) (normCode_idem c)
      (by rw [Bool.false_and])
    by_cases hc : normCode c = "OUT"
    · refine ⟨[Qy.countryLookup "OUT"], ?_, ?_⟩
      · rw [hc] at hv
        have hOUT : iso3Match "OUT" = true := by decide
        simp only [countryListLoop, normCountry, h1, if_true, hc, hv, hout,
          if_false, andThen, Bool.false_eq_true, hOUT]
      · intro q hq
        simp only [List.mem_singleton] at hq
        rw [hq]
        rfl
    · have h2' : db.countries.contains (normCode c) = true := h2.resolve_right hc
      have hex' : ∃ x ∈ rest, normCode x = "OUT" := by
        obtain ⟨x, hx, hxo⟩ := hex
        rcases List.mem_cons.1 hx with h | h
        · exact absurd (h ▸ hxo) hc
        · exact ⟨x, h, hxo⟩
      obtain ⟨t, ht, hta⟩ := ih (fun x hx => hall x (List.mem_cons_of_mem c hx)) hex'
      refine ⟨Qy.countryLookup (normCode c) :: t, ?_, ?_⟩
      · simp only [countryListLoop, normCountry, h1, if_true, hv, h2', andThen,
          ht, List.cons_append, List.nil_append]
      · intro q hq
        rcases List.mem_cons.1 hq with h | h
        · rw [h]
          rfl
        · exact hta q h

theorem validate_country_list_eval (db : Db) :
    (∀ v : PyVal, (∀ l, v ≠ PyVal.vlist l) →
      validate_country_list db v = ([], Except.error Err.emptyList)) ∧
    (validate_country_list db (PyVal.vlist []) =
      ([], Except.error Err.emptyList)) ∧
    (∀ cs : List String, cs ≠ [] →
      (∀ c ∈ cs, iso3Match (normCode c) = true ∧
        db.countries.contains (normCode c) = true) →
      validate_country_list db (PyVal.vlist cs) =
        (cs.map (fun c => Qy.countryLookup (normCode c)),
          Except.ok (dedupFirst (cs.map normCode)))) ∧
    (∀ c : String, normCode c = "OUT" →
      db.countries.contains "OUT" = false →
      validate_country_list db (PyVal.vlist [c]) =
        ([Qy.countryLookup "OUT"],
          Except.error (Err.notFoundCountry "OUT"))) := by
  refine ⟨?_, ?_, ?_, ?_⟩
  · intro v hv
    cases v with
    | vint n => rfl
    | vstr s => rfl
    | vlist l => exact absurd rfl (hv l)
    | vnone => rfl
  · rfl
  · intro cs hne h
    have hl := countryListLoop_ok db cs h
    have hemp : cs.isEmpty = false := by
      cases cs with
      | nil => exact absurd rfl hne
      | cons a l => rfl
    simp only [validate_country_list, hemp, Bool.false_eq_true, if_false,
      andThen, hl, List.append_nil]
  · intro c hc hout
    have hv := validate_country_notOut db false (normCode c) (normCode_idem c)
      (by rw [Bool.false_and])
    rw [hc] at hv
    have hOUT : iso3Match "OUT" = true := by decide
    simp only [validate_country_list, List.isEmpty_cons, Bool.false_eq_true,
      if_false, countryListLoop, normCountry, hc, hOUT, if_true, hv, hout,
      andThen]

/-- C8: country-list validation rejects a non-list or empty argument
with the empty-list error; for a non-empty list of valid codes it looks
up every element individually, in order (the aggregate sentinel gets no
bypass: a sentinel element is looked up like any other code and fails
when absent from the reference set), and returns the normalized codes
de-duplicated preserving first-occurrence order. -/
theorem c8_country_list_validation (db : Db) :
    (∀ v : PyVal, (∀ l, v ≠ PyVal.vlist l) →
      validate_country_list db v = ([], Except.error Err.emptyList)) ∧
    (validate_country_list db (PyVal.vlist []) =
      ([], Except.error Err.emptyList)) ∧
    (∀ cs : List String, cs ≠ [] →
      (∀ c ∈ cs, iso3Match (normCode c) = true ∧
        db.countries.contains (normCode c) = true) →
      validate_country_list db (PyVal.vlist cs) =
        (cs.map (fun c => Qy.countryLookup (normCode c)),
          Except.ok (dedupFirst (cs.map normCode)))) ∧
    (∀ c : String, normCode c = "OUT" →
      db.countries.contains "OUT" = false →
      validate_country_list db (PyVal.vlist [c]) =
        ([Qy.countryLookup "OUT"],
          Except.error (Err.notFoundCountry "OUT"))) :=
  validate_country_list_eval db

/-- Witness for C8, among them the spec example
`["fra","FRA","deu"]` de-duplicating to `["FRA","DEU"]`. -/
theorem c8_witness :
    validate_country_list dbRef (PyVal.vlist ["fra", "FRA", "deu"]) =
      ([Qy.countryLookup "FRA", Qy.countryLookup "FRA", Qy.countryLookup "DEU"],
        Except.ok ["FRA", "DEU"]) ∧
    validate_country_list dbRef (PyVal.vstr "FRA") =
      ([], Except.error Err.emptyList) ∧
    validate_country_list dbRef (PyVal.vlist ["out"]) =
      ([Qy.countryLookup "OUT"], Except.error (Err.notFoundCountry "OUT")) := by
  refine ⟨?_, ?_, ?_⟩
  · have h := (c8_country_list_validation dbRef).2.2.1 ["fra", "FRA", "deu"]
      (by decide) (by decide)
    rw [h]
    decide
  · exact (c8_country_list_validation dbRef).1 (PyVal.vstr "FRA")
      (by intro l hl; cases hl)
  · exact (c8_country_list_validation dbRef).2.2.2 "out" (by decide) (by decide)

theorem procField_none (v : PyVal → List Qy × Except Err PyVal) :
    procField v none = ([], Except.ok none) := rfl

theorem procField_vnone (v : PyVal → List Qy × Except Err PyVal) :
    procField v (some PyVal.vnone) = ([], Except.ok (some PyVal.vnone)) := rfl

theorem procField_str (v : PyVal → List Qy × Except Err PyVal) (s : String) :
    procField v (some (PyVal.vstr s)) =
      andThen (v (PyVal.vstr s)) (fun y => ([], Except.ok (some y))) := rfl

theorem procField_int (v : PyVal → List Qy × Except Err PyVal) (n : Int) :
    procField v (some (PyVal.vint n)) =
      andThen (v (PyVal.vint n)) (fun y => ([], Except.ok (some y))) := rfl

theorem procField_list (v : PyVal → List Qy × Except Err PyVal)
    (l : List String) :
    procField v (some (PyVal.vlist l)) =
      andThen (v (PyVal.vlist l)) (fun y => ([], Except.ok (some y))) := rfl

theorem require_year_v_ok (field : String) (y : Int) (h1 : 1995 ≤ y)
    (h2 : y ≤ 2100) :
    require_year_v field (PyVal.vint y) = ([], Except.ok (PyVal.vint y)) := by
  simp only [require_year_v, require_year, validate_year]
  rw [if_neg (by simp only [Bool.or_eq_true, decide_eq_true_eq]; omega)]

theorem require_iso3_out (db : Db) (sc field : String)
    (hsc : normCode sc = "OUT") :
    require_iso3 db sc field true = ([], Except.ok "OUT") :=
  (require_iso3_eval db sc field true).1 rfl hsc

theorem validate_country_list_sentinel (db : Db) (cs : List String)
    (hall : ∀ c ∈ cs, iso3Match (normCode c) = true ∧
      (db.countries.contains (normCode c) = true ∨ normCode c = "OUT"))
    (hout : db.countries.contains "OUT" = false)
    (hex : ∃ c ∈ cs, normCode c = "OUT") :
    ∃ t : List Qy,
      validate_country_list db (PyVal.vlist cs) =
        (t, Except.error (Err.notFoundCountry "OUT")) ∧
      ∀ q ∈ t, isAnalytical q = false := by
  obtain ⟨t, ht, hta⟩ := countryListLoop_sentinel db cs hall hout hex
  have hemp : cs.isEmpty = false := by
    cases cs with
    | nil => simp at hex
    | cons a l => rfl
  refine ⟨t, ?_, hta⟩
  simp only [validate_country_list, hemp, Bool.false_eq_true, if_false,
    andThen, ht]

/-- The kwargs mapping of a fully keyword-supplied compare-countries
call. -/
def cmpKwOf (cs : List String) (bs sc : String) (y : Int) : CmpKw :=
  CmpKw.mk (some (PyVal.vlist cs)) (some (PyVal.vstr bs))
    (some (PyVal.vstr sc)) (some (PyVal.vint y))

/-- A data-store view returning no rows for the compare-countries
query. -/
def orcCmp0 : PyVal → PyVal → PyVal → PyVal → List CompareRow :=
  fun _ _ _ _ => []

/-- C2 (counterexample): a buyer-countries list containing the
whitespace/case sentinel variant `" out "` is not filtered out of the
list: the sentinel is validated like an ordinary code with the
aggregate disallowed, the reference lookup for `OUT` misses, and the
whole call fails with the country not-found error without running any
analytical query — it does not query with the sentinel excluded. -/
theorem c2_counterexample :
    product_dependency_compare_countries dbRef orcCmp0 []
        (cmpKwOf ["FRA", " out "] "C26" "OUT" 2022) =
      ([Qy.sectorLookup "C26", Qy.countryLookup "FRA", Qy.countryLookup "OUT"],
        Except.error (Err.notFoundCountry "OUT")) ∧
    (∀ q ∈ (product_dependency_compare_countries dbRef orcCmp0 []
        (cmpKwOf ["FRA", " out "] "C26" "OUT" 2022)).1,
      isAnalytical q = false) := by
  refine ⟨by decide, by decide⟩

/-- C2 (amended): `compare_countries` does not exclude the aggregate
sentinel from `buyer_countries`.  Every element, the sentinel included
(it matches the three-letter pattern), is validated against the
reference country set with the aggregate disallowed; when `OUT` is
absent from that set, a list containing any sentinel variant makes the
call fail with the country not-found error before any analytical
query.  For sentinel-free lists of valid codes, the analytical query
receives exactly the de-duplicated list of normalized codes. -/
theorem c2_compare_countries (db : Db)
    (orc : PyVal → PyVal → PyVal → PyVal → List CompareRow)
    (cs : List String) (bs sc : String) (y : Int) :
    (db.countries.contains "OUT" = false →
      (∀ c ∈ cs, iso3Match (normCode c) = true ∧
        (db.countries.contains (normCode c) = true ∨ normCode c = "OUT")) →
      (∃ c ∈ cs, normCode c = "OUT") →
      normCode sc = "OUT" →
      db.activities.contains (normCode bs) = true →
      1995 ≤ y → y ≤ 2100 →
      (product_dependency_compare_countries db orc [] (cmpKwOf cs bs sc y)).2 =
        Except.error (Err.notFoundCountry "OUT") ∧
      ∀ q ∈ (product_dependency_compare_countries db orc []
          (cmpKwOf cs bs sc y)).1, isAnalytical q = false) ∧
    (cs ≠ [] →
      (∀ c ∈ cs, iso3Match (normCode c) = true ∧
        db.countries.contains (normCode c) = true) →
      normCode sc = "OUT" →
      db.activities.contains (normCode bs) = true →
      1995 ≤ y → y ≤ 2100 →
      product_dependency_compare_countries db orc [] (cmpKwOf cs bs sc y) =
        (Qy.sectorLookup (normCode bs) ::
            cs.map (fun c => Qy.countryLookup (normCode c)) ++
            [Qy.qCompare (PyVal.vint y) (PyVal.vstr (normCode bs))
              (PyVal.vstr "OUT")
              (PyVal.vlist (dedupFirst (cs.map normCode)))],
          Except.ok (CmpOut.mk (PyVal.vint y) (PyVal.vstr (normCode bs))
            (PyVal.vstr "OUT")
            ((orc (PyVal.vint y) (PyVal.vstr (normCode bs)) (PyVal.vstr "OUT")
                (PyVal.vlist (dedupFirst (cs.map normCode)))).map
              (fun r => CompareOut.mk r.buyer_country r.buyer_country_name
                r.dependency_pct_str))))) := by
  constructor
  · intro hout hall hex hsc hbs hy1 hy2
    have h1 := require_iso3_out db sc "supplier_country" hsc
    have h2 := (require_sector_eval db bs "buyer_sector").2 hbs
    have h3 := require_year_v_ok "year" y hy1 hy2
    obtain ⟨t, ht, hta⟩ := validate_country_list_sentinel db cs hall hout hex
    have hres : product_dependency_compare_countries db orc []
        (cmpKwOf cs bs sc y) =
        (Qy.sectorLookup (normCode bs) :: t,
          Except.error (Err.notFoundCountry "OUT")) := by
      simp only [product_dependency_compare_countries, procCmp, cmpKwOf,
        procField_str, procField_int, procField_list, require_iso3_v,
        require_sector_v, h1, h2, h3, require_iso3_list_v, require_iso3_list,
        ht, andThen, List.nil_append, List.append_nil, List.cons_append]
    rw [hres]
    refine ⟨rfl, ?_⟩
    intro q hq
    rcases List.mem_cons.1 hq with h | h
    · rw [h]
      rfl
    · exact hta q h
  · intro hne hall hsc hbs hy1 hy2
    have h1 := require_iso3_out db sc "supplier_country" hsc
    have h2 := (require_sector_eval db bs "buyer_sector").2 hbs
    have h3 := require_year_v_ok "year" y hy1 hy2
    have hloop := countryListLoop_ok db cs hall
    have hemp : cs.isEmpty = false := by
      cases cs with
      | nil => exact absurd rfl hne
      | cons a l => rfl
    have h4 : validate_country_list db (PyVal.vlist cs) =
        (cs.map (fun c => Qy.countryLookup (normCode c)),
          Except.ok (dedupFirst (cs.map normCode))) := by
      simp only [validate_country_list, hemp, Bool.false_eq_true, if_false,
        andThen, hloop, List.append_nil]
    simp only [product_dependency_compare_countries, procCmp, cmpKwOf,
      procField_str, procField_int, procField_list, require_iso3_v,
      require_sector_v, h1, h2, h3, require_iso3_list_v, require_iso3_list,
      h4, andThen, List.nil_append, List.append_nil, List.cons_append]
    rfl

/-- Witness for the amended C2: a list with the plain sentinel fails
with not-found; the duplicated list of the spec queries with exactly
`["FRA","DEU"]`. -/
theorem c2_witness :
    (product_dependency_compare_countries dbRef orcCmp0 []
        (cmpKwOf ["FRA", "OUT"] "C26" "OUT" 2022)).2 =
      Except.error (Err.notFoundCountry "OUT") ∧
    product_dependency_compare_countries dbRef orcCmp0 []
        (cmpKwOf ["fra", "FRA", "deu"] "C26" "out" 2022) =
      ([Qy.sectorLookup "C26", Qy.countryLookup "FRA", Qy.countryLookup "FRA",
          Qy.countryLookup "DEU",
          Qy.qCompare (PyVal.vint 2022) (PyVal.vstr "C26") (PyVal.vstr "OUT")
            (PyVal.vlist ["FRA", "DEU"])],
        Except.ok (CmpOut.mk (PyVal.vint 2022) (PyVal.vstr "C26")
          (PyVal.vstr "OUT") [])) := by
  constructor
  · exact ((c2_compare_countries dbRef orcCmp0 ["FRA", "OUT"] "C26" "OUT"
      2022).1 (by decide) (by decide) (by decide) (by decide) (by decide)
      (by decide) (by decide)).1
  · have h := (c2_compare_countries dbRef orcCmp0 ["fra", "FRA", "deu"] "C26"
      "out" 2022).2 (by decide) (by decide) (by decide) (by decide)
      (by decide) (by decide)
    rw [h]
    decide

/-- The kwargs mapping of a fully keyword-supplied time-series call. -/
def timKwOf (bc bs sc : String) (yf yt : PyVal) : TimKw :=
  TimKw.mk (some (PyVal.vstr bc)) (some (PyVal.vstr bs))
    (some (PyVal.vstr sc)) (some yf) (some yt)

/-- A data-store view returning no rows for the time-series query. -/
def orcTim0 : PyVal → PyVal → PyVal → PyVal → PyVal → List TimeRow :=
  fun _ _ _ _ _ => []

/-- C3 (counterexample): `time_series` with `year_from=2022,
year_to=2016` and otherwise valid fields does fail with the
range-inverted error, but only after three reference-table lookups
have touched the data store — not before any query or lookup. -/
theorem c3_counterexample :
    product_dependency_time_series dbRef orcTim0 []
        (timKwOf "FRA" "C26" "CHN" (PyVal.vint 2022) (PyVal.vint 2016)) =
      ([Qy.countryLookup "FRA", Qy.countryLookup "CHN",
          Qy.sectorLookup "C26"], Except.error Err.rangeInverted) ∧
    (product_dependency_time_series dbRef orcTim0 []
        (timKwOf "FRA" "C26" "CHN" (PyVal.vint 2022) (PyVal.vint 2016))).1 ≠
      [] := by
  refine ⟨by decide, by decide⟩

/-- C3 (amended): with all code fields valid and an inverted year
range inside the policy bounds, `time_series` fails with the
range-inverted error before the analytical query executes — the trace
holds the reference-table validation lookups for the country and
sector fields, which have already touched the data store, and nothing
else. -/
theorem c3_time_series_range (db : Db)
    (orc : PyVal → PyVal → PyVal → PyVal → PyVal → List TimeRow)
    (bc bs sc : String) (yf yt : Int)
    (hbc1 : iso3Match (normCode bc) = true)
    (hbc2 : db.countries.contains (normCode bc) = true)
    (hsc0 : normCode sc ≠ "OUT")
    (hsc1 : iso3Match (normCode sc) = true)
    (hsc2 : db.countries.contains (normCode sc) = true)
    (hbs : db.activities.contains (normCode bs) = true)
    (hyf1 : 1995 ≤ yf) (hyf2 : yf ≤ 2100)
    (hyt1 : 1995 ≤ yt) (hinv : yt < yf) :
    product_dependency_time_series db orc []
        (timKwOf bc bs sc (PyVal.vint yf) (PyVal.vint yt)) =
      ([Qy.countryLookup (normCode bc), Qy.countryLookup (normCode sc),
          Qy.sectorLookup (normCode bs)], Except.error Err.rangeInverted) ∧
    ∀ q ∈ (product_dependency_time_series db orc []
        (timKwOf bc bs sc (PyVal.vint yf) (PyVal.vint yt))).1,
      isAnalytical q = false := by
  have h1 := (require_iso3_eval db bc "buyer_country" false).2.2.2
    (fun h => nomatch h.1) hbc1 hbc2
  have h2 := (require_iso3_eval db sc "supplier_country" true).2.2.2
    (fun h => hsc0 h.2) hsc1 hsc2
  have h3 := (require_sector_eval db bs "buyer_sector").2 hbs
  have hr := require_year_range_eval.2.1 yf yt hyt1 hinv hyf2
  have hres : product_dependency_time_series db orc []
      (timKwOf bc bs sc (PyVal.vint yf) (PyVal.vint yt)) =
      ([Qy.countryLookup (normCode bc), Qy.countryLookup (normCode sc),
          Qy.sectorLookup (normCode bs)], Except.error Err.rangeInverted) := by
    simp only [product_dependency_time_series, procTim, timKwOf,
      procField_str, require_iso3_v, h1, h2, require_sector_v, h3, procRange,
      hr, andThen, List.nil_append, List.append_nil, List.cons_append]
  refine ⟨hres, ?_⟩
  rw [hres]
  intro q hq
  rcases List.mem_cons.1 hq with h | hq
  · rw [h]
    rfl
  rcases List.mem_cons.1 hq with h | hq
  · rw [h]
    rfl
  rcases List.mem_cons.1 hq with h | hq
  · rw [h]
    rfl
  simp at hq

/-- Witness for the amended C3 at the spec scenario inputs. -/
theorem c3_witness :
    product_dependency_time_series dbRef orcTim0 []
        (timKwOf "FRA" "C26" "DEU" (PyVal.vint 2022) (PyVal.vint 2016)) =
      ([Qy.countryLookup "FRA", Qy.countryLookup "DEU",
          Qy.sectorLookup "C26"], Except.error Err.rangeInverted) := by
  exact (c3_time_series_range dbRef orcTim0 "FRA" "C26" "DEU" 2022 2016
    (by decide) (by decide) (by decide) (by decide) (by decide) (by decide)
    (by decide) (by decide) (by decide) (by decide)).1

theorem product_ts_positional (db : Db)
    (orc : PyVal → PyVal → PyVal → PyVal → List SupplierRow) (b : TSBound) :
    product_dependency_top_suppliers db orc
      [b.buyer_country, b.buyer_sector, b.year, b.limit] emptyTSKw =
    bodyTS orc b := rfl

theorem product_sec_positional (db : Db)
    (orc : PyVal → PyVal → PyVal → PyVal → List SectorRow) (b : SecBound) :
    product_dependency_top_sectors db orc
      [b.buyer_country, b.supplier_country, b.year, b.limit] emptySecKw =
    bodySec orc b := rfl

theorem product_cmp_positional (db : Db)
    (orc : PyVal → PyVal → PyVal → PyVal → List CompareRow) (b : CmpBound) :
    product_dependency_compare_countries db orc
      [b.buyer_countries, b.buyer_sector, b.supplier_country, b.year]
      emptyCmpKw =
    bodyCmp orc b := rfl

theorem product_tim_positional (db : Db)
    (orc : PyVal → PyVal → PyVal → PyVal → PyVal → List TimeRow)
    (b : TimBound) :
    product_dependency_time_series db orc
      [b.buyer_country, b.buyer_sector, b.supplier_country, b.year_from,
        b.year_to] emptyTimKw =
    bodyTim orc b := rfl

/-- C9: for every reference-table state, every data-store view and
every keyword-argument mapping, each `sector_dependency_*` alias
returns exactly the result — data-store trace included — of its
`product_dependency_*` primary: identical wrapper configuration, then
a positional delegation that re-runs no validation. -/
theorem c9_alias_equivalence :
    (∀ (db : Db) (orc : PyVal → PyVal → PyVal → PyVal → List SupplierRow)
      (k : TSKw),
      sector_dependency_top_suppliers db orc [] k =
        product_dependency_top_suppliers db orc [] k) ∧
    (∀ (db : Db) (orc : PyVal → PyVal → PyVal → PyVal → List SectorRow)
      (k : SecKw),
      sector_dependency_top_sectors db orc [] k =
        product_dependency_top_sectors db orc [] k) ∧
    (∀ (db : Db) (orc : PyVal → PyVal → PyVal → PyVal → List CompareRow)
      (k : CmpKw),
      sector_dependency_compare_countries db orc [] k =
        product_dependency_compare_countries db orc [] k) ∧
    (∀ (db : Db) (orc : PyVal → PyVal → PyVal → PyVal → PyVal → List TimeRow)
      (k : TimKw),
      sector_dependency_time_series db orc [] k =
        product_dependency_time_series db orc [] k) := by
  refine ⟨?_, ?_, ?_, ?_⟩
  · intro db orc k
    refine congrArg (andThen (procTS db k)) (funext fun k2 => ?_)
    cases h : bindTS [] k2 with
    | error e => rfl
    | ok b => exact product_ts_positional db orc b
  · intro db orc k
    refine congrArg (andThen (procSec db k)) (funext fun k2 => ?_)
    cases h : bindSec [] k2 with
    | error e => rfl
    | ok b => exact product_sec_positional db orc b
  · intro db orc k
    refine congrArg (andThen (procCmp db k)) (funext fun k2 => ?_)
    cases h : bindCmp [] k2 with
    | error e => rfl
    | ok b => exact product_cmp_positional db orc b
  · intro db orc k
    refine congrArg (andThen (procTim db k)) (funext fun k2 => ?_)
    cases h : bindTim [] k2 with
    | error e => rfl
    | ok b => exact product_tim_positional db orc b

/-- A data-store view returning no rows for the top-suppliers query. -/
def orcTS0 : PyVal → PyVal → PyVal → PyVal → List SupplierRow :=
  fun _ _ _ _ => []

/-- C10 (counterexample): a `None` value for `year_from`, a field
declared through the year-range pass of the wrapper, is not forwarded
unvalidated — the range pass checks presence only, so it validates the
`None`, fails with the integer type error, and the underlying function
never runs. -/
theorem c10_counterexample :
    product_dependency_time_series dbRef orcTim0 []
        (timKwOf "FRA" "C26" "CHN" PyVal.vnone (PyVal.vint 2022)) =
      ([Qy.countryLookup "FRA", Qy.countryLookup "CHN",
          Qy.sectorLookup "C26"],
        Except.error (Err.invalidType "year must be an integer")) ∧
    (∀ q ∈ (product_dependency_time_series dbRef orcTim0 []
        (timKwOf "FRA" "C26" "CHN" PyVal.vnone (PyVal.vint 2022))).1,
      isAnalytical q = false) := by
  refine ⟨by decide, by decide⟩

/-- C10 (amended): for fields of the iso3, sector, year, limit and
iso3-list kinds, the wrapper validates a declared field only when it
is present in the keyword mapping with a non-`None` value — positional
values, omitted values and `None` values are forwarded to the
underlying function and its query raw; the year-range pair is the
exception, validated whenever both names are present in kwargs, even
when a value is `None`. -/
theorem c10_decorator_scope (db : Db)
    (orcS : PyVal → PyVal → PyVal → PyVal → List SupplierRow)
    (orcT : PyVal → PyVal → PyVal → PyVal → PyVal → List TimeRow)
    (v1 v2 v3 v4 : PyVal) (bc bs sc : String) :
    (product_dependency_top_suppliers db orcS [v1, v2, v3, v4] emptyTSKw =
      ([Qy.qTopSuppliers v3 v1 v2 v4],
        Except.ok (TSOut.mk v3 v1 v2
          ((orcS v3 v1 v2 v4).map
            (fun r => SupplierOut.mk r.supplier_country
              r.dependency_pct_str))))) ∧
    (iso3Match (normCode bc) = true →
      db.countries.contains (normCode bc) = true →
      db.activities.contains (normCode bs) = true →
      product_dependency_top_suppliers db orcS []
          (TSKw.mk (some (PyVal.vstr bc)) (some (PyVal.vstr bs))
            (some PyVal.vnone) none) =
        ([Qy.countryLookup (normCode bc), Qy.sectorLookup (normCode bs),
            Qy.qTopSuppliers PyVal.vnone (PyVal.vstr (normCode bc))
              (PyVal.vstr (normCode bs)) (PyVal.vint 10)],
          Except.ok (TSOut.mk PyVal.vnone (PyVal.vstr (normCode bc))
            (PyVal.vstr (normCode bs))
            ((orcS PyVal.vnone (PyVal.vstr (normCode bc))
                (PyVal.vstr (normCode bs)) (PyVal.vint 10)).map
              (fun r => SupplierOut.mk r.supplier_country
                r.dependency_pct_str))))) ∧
    (iso3Match (normCode bc) = true →
      db.countries.contains (normCode bc) = true →
      normCode sc ≠ "OUT" →
      iso3Match (normCode sc) = true →
      db.countries.contains (normCode sc) = true →
      db.activities.contains (normCode bs) = true →
      product_dependency_time_series db orcT []
          (timKwOf bc bs sc PyVal.vnone (PyVal.vint 2022)) =
        ([Qy.countryLookup (normCode bc), Qy.countryLookup (normCode sc),
            Qy.sectorLookup (normCode bs)],
          Except.error (Err.invalidType "year must be an integer"))) := by
  refine ⟨rfl, ?_, ?_⟩
  · intro hbc1 hbc2 hbs
    have h1 := (require_iso3_eval db bc "buyer_country" false).2.2.2
      (fun h => nomatch h.1) hbc1 hbc2
    have h2 := (require_sector_eval db bs "buyer_sector").2 hbs
    simp only [product_dependency_top_suppliers, procTS, procField_str,
      procField_vnone, procField_none, require_iso3_v, h1, require_sector_v,
      h2, andThen, List.nil_append, List.append_nil, List.cons_append]
    rfl
  · intro hbc1 hbc2 hsc0 hsc1 hsc2 hbs
    have h1 := (require_iso3_eval db bc "buyer_country" false).2.2.2
      (fun h => nomatch h.1) hbc1 hbc2
    have h2 := (require_iso3_eval db sc "supplier_country" true).2.2.2
      (fun h => hsc0 h.2) hsc1 hsc2
    have h3 := (require_sector_eval db bs "buyer_sector").2 hbs
    have hr := require_year_range_eval.2.2.2 PyVal.vnone (PyVal.vint 2022)
      (fun n h => nomatch h)
    simp only [product_dependency_time_series, procTim, timKwOf,
      procField_str, require_iso3_v, h1, h2, require_sector_v, h3, procRange,
      hr, andThen, List.nil_append, List.append_nil, List.cons_append]

/-- Witness for the amended C10: garbage positional arguments reach
the query untouched; a `None` year in kwargs reaches the query as
`None` with the omitted limit defaulted; a `None` year-range field is
rejected instead. -/
theorem c10_witness :
    product_dependency_top_suppliers dbRef orcTS0
        [PyVal.vstr "no such country", PyVal.vstr "bogus",
          PyVal.vstr "not a year", PyVal.vnone] emptyTSKw =
      ([Qy.qTopSuppliers (PyVal.vstr "not a year")
          (PyVal.vstr "no such country") (PyVal.vstr "bogus") PyVal.vnone],
        Except.ok (TSOut.mk (PyVal.vstr "not a year")
          (PyVal.vstr "no such country") (PyVal.vstr "bogus") [])) ∧
    product_dependency_top_suppliers dbRef orcTS0 []
        (TSKw.mk (some (PyVal.vstr "FRA")) (some (PyVal.vstr "C26"))
          (some PyVal.vnone) none) =
      ([Qy.countryLookup "FRA", Qy.sectorLookup "C26",
          Qy.qTopSuppliers PyVal.vnone (PyVal.vstr "FRA") (PyVal.vstr "C26")
            (PyVal.vint 10)],
        Except.ok (TSOut.mk PyVal.vnone (PyVal.vstr "FRA")
          (PyVal.vstr "C26") [])) ∧
    product_dependency_time_series dbRef orcTim0 []
        (timKwOf "FRA" "C26" "DEU" PyVal.vnone (PyVal.vint 2022)) =
      ([Qy.countryLookup "FRA", Qy.countryLookup "DEU",
          Qy.sectorLookup "C26"],
        Except.error (Err.invalidType "year must be an integer")) := by
  refine ⟨?_, ?_, ?_⟩
  · exact (c10_decorator_scope dbRef orcTS0 orcTim0 (PyVal.vstr "no such country")
      (PyVal.vstr "bogus") (PyVal.vstr "not a year") PyVal.vnone "FRA" "C26"
      "DEU").1
  · have h := (c10_decorator_scope dbRef orcTS0 orcTim0 PyVal.vnone
      PyVal.vnone PyVal.vnone PyVal.vnone "FRA" "C26" "DEU").2.1
      (by decide) (by decide) (by decide)
    rw [h]
    decide
  · exact (c10_decorator_scope dbRef orcTS0 orcTim0 PyVal.vnone PyVal.vnone
      PyVal.vnone PyVal.vnone "FRA" "C26" "DEU").2.2 (by decide) (by decide)
      (by decide) (by decide) (by decide) (by decide)

theorem ratFloor_eq (q : Rat) : Rat.floor q = Int.floor q := by
  rw [Rat.floor_def', Rat.floor_def]

/-- A concrete ratio 0.5012, the first formatting example of the spec. -/
def dHalf : DepShare := ⟨5012 / 10000, by norm_num⟩

/-- A concrete ratio 0.005, the half-up example of the spec. -/
def dTiny : DepShare := ⟨5 / 1000, by norm_num⟩

/-- A concrete ratio 0.00125, whose percentage 0.125 sits exactly on a
rounding tie at the hundredths place: half-up gives 0.13, bankers
rounding would give 0.12. -/
def dTie : DepShare := ⟨125 / 100000, by norm_num⟩

theorem pctCentis_floor (d : DepShare) :
    pctCentis d.val = Rat.floor (d.val * 10000 + 1 / 2) := by
  unfold pctCentis
  rw [if_pos d.property.1]

/-- C4: the shaping layer maps each view row to its output entry with
the view column `dependency_pct_str` passed through into `dependency_pct`;
with the view formatting modelled from the spec, every rendered
value is the ratio times 100 rounded half-up to two decimals (the
produced integer `n` of hundredths of a percent satisfies exactly the
floor characterization of half-up rounding), rendered with a decimal
comma and a percent suffix; a null ratio renders as the empty string,
and the spec examples — 0.5012, 0.005, and the tie 0.00125 — render
as "50,12%", "0,50%" and "0,13%". -/
theorem c4_percentage_formatting :
    (∀ (rows : List ViewRow) (b : TSBound),
      bodyTS (fun _ _ _ _ => rows.map viewFormat) b =
        ([Qy.qTopSuppliers b.year b.buyer_country b.buyer_sector b.limit],
          Except.ok (TSOut.mk b.year b.buyer_country b.buyer_sector
            (rows.map (fun r => SupplierOut.mk r.supplier_country
              (formatPct r.dep)))))) ∧
    formatPct none = "" ∧
    (∀ d : DepShare, ∃ n : Nat,
      formatPct (some d) =
        toString (n / 100) ++ "," ++ twoDigits (n % 100) ++ "%" ∧
      (n : Rat) ≤ d.val * 10000 + 1 / 2 ∧
      d.val * 10000 + 1 / 2 < (n : Rat) + 1) ∧
    formatPct (some dHalf) = "50,12%" ∧
    formatPct (some dTiny) = "0,50%" ∧
    formatPct (some dTie) = "0,13%" := by
  have heval : ∀ (d : DepShare) (z : Int), 0 ≤ z →
      pctCentis d.val = z →
      formatPct (some d) =
        toString (z.toNat / 100) ++ "," ++ twoDigits (z.toNat % 100) ++ "%" := by
    intro d z hz hc
    show (if pctCentis d.val < 0 then "-" else "") ++
        toString ((pctCentis d.val).natAbs / 100) ++ "," ++
        twoDigits ((pctCentis d.val).natAbs % 100) ++ "%" = _
    rw [hc, if_neg (by omega)]
    have hna : z.natAbs = z.toNat := by omega
    rw [hna]
    rfl
  refine ⟨fun rows b => by rw [bodyTS, List.map_map]; rfl, rfl, ?_, ?_, ?_, ?_⟩
  · intro d
    have h0 : (0 : Rat) ≤ d.val * 10000 + 1 / 2 :=
      add_nonneg (mul_nonneg d.property.1 (by norm_num)) (by norm_num)
    have hfl : 0 ≤ Rat.floor (d.val * 10000 + 1 / 2) := by
      rw [ratFloor_eq]
      exact Int.floor_nonneg.2 h0
    refine ⟨(Rat.floor (d.val * 10000 + 1 / 2)).toNat, ?_, ?_, ?_⟩
    · exact heval d _ hfl (pctCentis_floor d)
    · have hcast : (((Rat.floor (d.val * 10000 + 1 / 2)).toNat : Int) : Rat) =
          ((Rat.floor (d.val * 10000 + 1 / 2) : Int) : Rat) := by
        rw [Int.toNat_of_nonneg hfl]
      push_cast at hcast
      rw [hcast, ratFloor_eq]
      exact Int.floor_le _
    · have hcast : (((Rat.floor (d.val * 10000 + 1 / 2)).toNat : Int) : Rat) =
          ((Rat.floor (d.val * 10000 + 1 / 2) : Int) : Rat) := by
        rw [Int.toNat_of_nonneg hfl]
      push_cast at hcast
      rw [hcast, ratFloor_eq]
      exact Int.lt_floor_add_one _
  · have hc : pctCentis dHalf.val = 5012 := by
      rw [pctCentis_floor, ratFloor_eq]
      rw [show dHalf.val * 10000 + 1 / 2 = (10025 : Rat) / 2 by
        norm_num [dHalf]]
      rw [Int.floor_eq_iff]
      constructor
      · norm_num
      · norm_num
    rw [heval dHalf 5012 (by omega) hc]
    decide
  · have hc : pctCentis dTiny.val = 50 := by
      rw [pctCentis_floor, ratFloor_eq]
      rw [show dTiny.val * 10000 + 1 / 2 = (101 : Rat) / 2 by
        norm_num [dTiny]]
      rw [Int.floor_eq_iff]
      constructor
      · norm_num
      · norm_num
    rw [heval dTiny 50 (by omega) hc]
    decide
  · have hc : pctCentis dTie.val = 13 := by
      rw [pctCentis_floor, ratFloor_eq]
      rw [show dTie.val * 10000 + 1 / 2 = (13 : Rat) by norm_num [dTie]]
      rw [Int.floor_eq_iff]
      constructor
      · norm_num
      · norm_num
    rw [heval dTie 13 (by omega) hc]
    decide
